import Mathlib

/-!
Shallow embedding of the DiscordBot2 repository's core logic
(XP/leveling, economy, ticket manager, bug tracker, board rendering),
translated from src/index.js and the in-memory variants
src/unnamed/part_001 .. part_003.

Conventions of the embedding:
- JS objects become structures; in-place mutation becomes explicit
  state passing (the function returns the updated store).
- JS `Map` stores become association lists (first match wins, new
  entries appended, matching Map insertion-order semantics).
- A thrown JS `Error` becomes an `Except.error` result (paired with
  the store as mutated up to the throw point).
- `null` / `undefined` become `Option`; JS string truthiness tests
  (`if (note)`) become emptiness tests on the modelled value.
- Machine numbers that stay integral are modelled as `Nat` (counters,
  xp, levels, ids) or `Int` (balances, timestamps, transfer amounts).
-/

namespace DiscordBot

/-! ## XP / Leveling (src/unnamed/part_003 lines 158-183, part_002 lines 103-131) -/

/-- `xpForNext(level) = 5*level*level + 50*level + 100` -/
def xpForNext (level : Nat) : Nat := 5 * level * level + 50 * level + 100

/-- One per-community user-progress record
(`{ xp: 0, level: 0, balance: 0, lastDailyMs: 0 }` in `ensureUser`). -/
structure UserRec where
  xp : Nat
  level : Nat
  balance : Int
  lastDailyMs : Int
deriving Repr, DecidableEq

def defaultUser : UserRec := { xp := 0, level := 0, balance := 0, lastDailyMs := 0 }

theorem xpForNext_pos (level : Nat) : 0 < xpForNext level := by
  have h : 100 ≤ xpForNext level := Nat.le_add_left 100 (5 * level * level + 50 * level)
  omega

/-- The `while (u.xp >= xpForNext(u.level))` loop of `addXp`: the loop
state is the pair (u.xp, u.level); each iteration subtracts the
current threshold and bumps the level. -/
def levelLoop (xp level : Nat) : Nat × Nat :=
  if xpForNext level ≤ xp then levelLoop (xp - xpForNext level) (level + 1)
  else (xp, level)
termination_by xp
decreasing_by
  have h100 : 0 < xpForNext level := xpForNext_pos level
  omega

/-- `addXp(guildId, userId, amount)` acting on the user's record:
adds the amount then runs the leveling loop; returns the updated
record together with the `leveledUp` flag.  In the source the flag is
set inside the loop body, so it is true exactly when the loop body ran
at least once, i.e. when the initial loop test succeeds. -/
def addXp (u : UserRec) (amount : Nat) : UserRec × Bool :=
  let r := levelLoop (u.xp + amount) u.level
  ({ u with xp := r.1, level := r.2 }, decide (xpForNext u.level ≤ u.xp + amount))

/-! ## Economy (src/unnamed/part_003 lines 199-234, part_002 lines 147-182) -/

/-- Result shape of `claimDaily`: `{ ok:false, remainingMs }` or
`{ ok:true, reward, balance }`. -/
inductive ClaimResult where
  | fail (remainingMs : Int)
  | success (reward balance : Int)
deriving Repr, DecidableEq

/-- `claimDaily(guildId, userId)` acting on the user's record; `now`
and the random `reward` (drawn in [250,500] at the call site) are
explicit parameters. -/
def claimDaily (u : UserRec) (now reward : Int) : UserRec × ClaimResult :=
  if u.lastDailyMs ≠ 0 ∧ now - u.lastDailyMs < 86400000 then
    (u, ClaimResult.fail (86400000 - (now - u.lastDailyMs)))
  else
    ({ u with lastDailyMs := now, balance := u.balance + reward },
     ClaimResult.success reward (u.balance + reward))

/-- `getUserKey(guildId, userId)` -/
def getUserKey (guildId userId : String) : String := guildId ++ ":" ++ userId

/-- The `users` Map, as an association list keyed by `getUserKey`. -/
abbrev Users := List (String × UserRec)

/-- `users.get(key)` -/
def findUser (users : Users) (key : String) : Option UserRec :=
  (List.find? (fun p => p.1 == key) users).map (fun p => p.2)

/-- `ensureUser`: insert the default record if the key is absent. -/
def ensureUser (users : Users) (key : String) : Users :=
  match findUser users key with
  | some _ => users
  | none => users ++ [(key, defaultUser)]

/-- In-place update of the record stored at `key`. -/
def setUser (users : Users) (key : String) (r : UserRec) : Users :=
  List.map (fun p => if p.1 == key then (key, r) else p) users

/-- The balance a lookup of `key` observes (0 when absent, matching the
default record `ensureUser` would create). -/
def balanceOf (users : Users) (key : String) : Int :=
  ((findUser users key).getD defaultUser).balance

/-- `transferBalance(guildId, fromId, toId, amount)`.
The JS function throws (`Except.error` here) on a non-positive amount
and on insufficient funds; the returned store reflects all mutations
performed before the throw point (the two `ensureUser` calls).  The
record updates copy the untouched fields, matching the in-place
`from.balance -= amount; to.balance += amount`. -/
def transferBalance (users : Users) (guildId fromId toId : String) (amount : Int) :
    Users × Except String Bool :=
  if amount ≤ 0 then
    (users, Except.error "amount must be > 0")
  else
    let fromKey := getUserKey guildId fromId
    let toKey := getUserKey guildId toId
    let u1 := ensureUser users fromKey
    let u2 := ensureUser u1 toKey
    let fromRec := (findUser u2 fromKey).getD defaultUser
    if fromRec.balance < amount then
      (u2, Except.error "insufficient funds")
    else
      let u3 := setUser u2 fromKey
        { xp := fromRec.xp, level := fromRec.level,
          balance := fromRec.balance - amount, lastDailyMs := fromRec.lastDailyMs }
      let toRec := (findUser u3 toKey).getD defaultUser
      let u4 := setUser u3 toKey
        { xp := toRec.xp, level := toRec.level,
          balance := toRec.balance + amount, lastDailyMs := toRec.lastDailyMs }
      (u4, Except.ok true)

/-! ## Guild settings (src/index.js lines 92-111) -/

/-- Per-guild settings record (`getSettings` defaults).  Channel, role
and message ids are opaque references; board message ids are the `Nat`
ids of our message model. -/
structure GuildSettings where
  log_channel_id : Option String
  ticket_category_id : Option String
  ticket_counter : Nat
  ticket_staff_role_id : Option String
  bug_input_channel_id : Option String
  bug_board_channel_id : Option String
  bug_board_message_id : Option Nat
  bug_updates_channel_id : Option String
deriving Repr, DecidableEq

/-- The defaults `getSettings` returns for an unknown guild. -/
def defaultSettings : GuildSettings :=
  { log_channel_id := none, ticket_category_id := none, ticket_counter := 0,
    ticket_staff_role_id := none, bug_input_channel_id := none,
    bug_board_channel_id := none, bug_board_message_id := none,
    bug_updates_channel_id := none }

/-! ## Ticket manager (src/index.js lines 122-306) -/

/-- A ticket record (`tickets.set(ch.id, t)`); status is the literal
JS string, `"open"` or `"closed"`. -/
structure Ticket where
  guildId : String
  ownerId : String
  status : String
  createdAtMs : Int
  closedAtMs : Int
  assignedStaffIds : List String
  addedUserIds : List String
deriving Repr, DecidableEq

/-- The `tickets` Map keyed by channel id. -/
abbrev Tickets := List (String × Ticket)

/-- `getTicket(channelId)` -/
def getTicket (tickets : Tickets) (channelId : String) : Option Ticket :=
  (List.find? (fun p => p.1 == channelId) tickets).map (fun p => p.2)

/-- In-place update of the ticket stored at `channelId`. -/
def setTicket (tickets : Tickets) (channelId : String) (t : Ticket) : Tickets :=
  List.map (fun p => if p.1 == channelId then (channelId, t) else p) tickets

/-- `nextTicketNumber(guildId)`: increments the persisted counter and
returns the new value. -/
def nextTicketNumber (s : GuildSettings) : Nat × GuildSettings :=
  let next := s.ticket_counter + 1
  (next, { s with ticket_counter := next })

/-- `String(num).padStart(4, "0")` -/
def padStart4 (n : Nat) : String :=
  let s := toString n
  if s.length < 4 then String.mk (List.replicate (4 - s.length) '0') ++ s else s

/-- `createTicketChannel(guild, ownerMember, reasonText)`: only the
ticket-numbering and store effects are modelled.  The SDK calls are
abstracted into flags: `meOk` is whether the bot member resolves
(`if (!me) throw`), `channelCreateOk` whether `guild.channels.create`
succeeds (its rejection propagates uncaught).  The counter is consumed
by `nextTicketNumber` before either of those can fail. -/
def createTicketChannel (s : GuildSettings) (tickets : Tickets) (guildId ownerId : String)
    (meOk channelCreateOk : Bool) (newChannelId : String) (now : Int) :
    GuildSettings × Tickets × Except String String :=
  let num := (nextTicketNumber s).1
  let s1 := (nextTicketNumber s).2
  let channelName := "ticket-" ++ padStart4 num
  if !meOk then
    (s1, tickets, Except.error "Bot member not found in guild.")
  else if !channelCreateOk then
    (s1, tickets, Except.error "channel creation failed")
  else
    (s1,
     tickets ++ [(newChannelId,
       { guildId := guildId, ownerId := ownerId, status := "open",
         createdAtMs := now, closedAtMs := 0,
         assignedStaffIds := [], addedUserIds := [] })],
     Except.ok channelName)

/-- The `{ ok, reason? }` result of `closeTicketChannel`. -/
structure CloseResult where
  ok : Bool
  reason : Option String
deriving Repr, DecidableEq

/-- `closeTicketChannel(guild, channel, closedById)`.  The scheduled
10-second deletion is modelled by appending the channel id to a
pending-deletions list; message sends and log posts carry no state. -/
def closeTicketChannel (tickets : Tickets) (pending : List String)
    (guildId channelId closedById : String) (now : Int) :
    (Tickets × List String) × CloseResult :=
  match getTicket tickets channelId with
  | none =>
    ((tickets, pending), { ok := false, reason := some "This channel is not an open ticket." })
  | some t =>
    if t.guildId ≠ guildId ∨ t.status ≠ "open" then
      ((tickets, pending), { ok := false, reason := some "This channel is not an open ticket." })
    else
      ((setTicket tickets channelId { t with status := "closed", closedAtMs := now },
        pending ++ [channelId]),
       { ok := true, reason := none })

/-! ## JS string helpers -/

/-- `str.trim()`: strip leading and trailing whitespace (structural
model over the character list). -/
def jsTrim (s : String) : String :=
  String.mk (((s.data.dropWhile Char.isWhitespace).reverse.dropWhile Char.isWhitespace).reverse)

/-- `str.slice(0, n)`: the first `n` characters. -/
def jsSlice (s : String) (n : Nat) : String := String.mk (s.data.take n)

/-! ## Bug tracker (src/index.js lines 365-471, part_001 lines 169-249) -/

/-- One entry of a bug's `comments` array. -/
structure BugComment where
  byId : String
  text : String
  atMs : Int
deriving Repr, DecidableEq

/-- A bug record as stored by `createBug`. -/
structure Bug where
  id : Nat
  reporterId : String
  title : String
  description : String
  status : String
  createdAtMs : Int
  updatedAtMs : Int
  sourceChannelId : Option String
  sourceMessageId : Option String
  sourceMessageUrl : Option String
  assignedToId : Option String
  lastNote : String
  comments : List BugComment
deriving Repr, DecidableEq

/-- `{ counter: 0, items: new Map() }` of `getBugStore`. -/
structure BugStore where
  counter : Nat
  items : List (Nat × Bug)
deriving Repr, DecidableEq

def BUG_STATUSES : List String :=
  ["OPEN", "IN_PROGRESS", "WAITING", "CANT_FIX", "CANT_REPRODUCE", "RESOLVED"]

/-- `makeMessageLink(guildId, channelId, messageId)` -/
def makeMessageLink (guildId channelId messageId : String) : String :=
  "https://discord.com/channels/" ++ guildId ++ "/" ++ channelId ++ "/" ++ messageId

/-- `createBug(guildId, reporterId, title, description, sourceChannelId,
sourceMessageId)`: allocates `++store.counter`, normalizes title and
description with trim-or-fallback (no truncation happens here), and
appends the new record. -/
def createBug (store : BugStore) (guildId reporterId title description : String)
    (sourceChannelId sourceMessageId : Option String) (now : Int) : BugStore × Bug :=
  let id := store.counter + 1
  let item : Bug :=
    { id := id,
      reporterId := reporterId,
      title := if jsTrim title = "" then "Untitled" else jsTrim title,
      description := if jsTrim description = "" then "(no description)" else jsTrim description,
      status := "OPEN",
      createdAtMs := now,
      updatedAtMs := now,
      sourceChannelId := sourceChannelId,
      sourceMessageId := sourceMessageId,
      sourceMessageUrl :=
        match sourceChannelId, sourceMessageId with
        | some c, some m => some (makeMessageLink guildId c m)
        | _, _ => none,
      assignedToId := none,
      lastNote := "",
      comments := [] }
  ({ counter := id, items := store.items ++ [(id, item)] }, item)

/-- `getBug(guildId, id)` -/
def getBug (store : BugStore) (id : Nat) : Option Bug :=
  (List.find? (fun p => p.1 == id) store.items).map (fun p => p.2)

/-- In-place update of the bug stored at `id`. -/
def setBugItem (store : BugStore) (id : Nat) (b : Bug) : BugStore :=
  { store with items := List.map (fun p => if p.1 == id then (id, b) else p) store.items }

/-- `setBugStatus(guildId, id, status, assignedToId, note)`.
`assignedToId` distinguishes `undefined` (outer `none`: leave as is)
from a provided value that may itself be null (`some none`: clear).
`if (note)` is the JS truthiness test, i.e. `note ≠ ""`. -/
def setBugStatus (store : BugStore) (id : Nat) (status : String)
    (assignedToId : Option (Option String)) (note : String) (now : Int) :
    BugStore × Option Bug :=
  match getBug store id with
  | none => (store, none)
  | some bug =>
    let b1 := { bug with status := status, updatedAtMs := now }
    let b2 :=
      match assignedToId with
      | some a => { b1 with assignedToId := a }
      | none => b1
    let b3 := if note ≠ "" then { b2 with lastNote := jsSlice note 900 } else b2
    (setBugItem store id b3, some b3)

/-- `addBugComment(guildId, id, byId, text)` -/
def addBugComment (store : BugStore) (id : Nat) (byId text : String) (now : Int) :
    BugStore × Option Bug :=
  match getBug store id with
  | none => (store, none)
  | some bug =>
    let t := jsTrim text
    if t = "" then (store, none)
    else
      let b1 := { bug with
        comments := bug.comments ++ [{ byId := byId, text := jsSlice t 900, atMs := now }],
        updatedAtMs := now }
      (setBugItem store id b1, some b1)

/-- `reopenBug(guildId, id, note)` -/
def reopenBug (store : BugStore) (id : Nat) (note : String) (now : Int) :
    BugStore × Option Bug :=
  match getBug store id with
  | none => (store, none)
  | some bug =>
    let b1 := { bug with status := "OPEN", updatedAtMs := now }
    let b2 := if note ≠ "" then { b1 with lastNote := jsSlice note 900 } else b1
    (setBugItem store id b2, some b2)

/-! ## Bug update notifications (src/index.js lines 535-568) -/

/-- `clampText(str, max)`: truncate with an ellipsis when too long. -/
def clampText (str : String) (max : Nat) : String :=
  if str.length > max then jsSlice str (max - 1) ++ "…" else str

/-- `bugStatusEmoji(status)` -/
def bugStatusEmoji (status : String) : String :=
  if status = "OPEN" then "🟥"
  else if status = "IN_PROGRESS" then "🟨"
  else if status = "WAITING" then "🟦"
  else if status = "CANT_FIX" then "⬛"
  else if status = "CANT_REPRODUCE" then "🟪"
  else if status = "RESOLVED" then "🟩"
  else "❔"

/-- `s.bug_updates_channel_id || s.bug_board_channel_id || s.bug_input_channel_id` -/
def announceTargetChannel (s : GuildSettings) : Option String :=
  match s.bug_updates_channel_id with
  | some c => some c
  | none =>
    match s.bug_board_channel_id with
    | some c => some c
    | none => s.bug_input_channel_id

/-- What `ch.send({...})` is given: the plain-text `content` (absent
when `undefined`), the `allowedMentions.users` list that controls who
is actually pinged, and the embed description. -/
structure OutMessage where
  content : Option String
  allowedMentionUsers : List String
  embedDescription : String
deriving Repr, DecidableEq

/-- `announceBugUpdate(guild, bug, changedById, extraText)`: returns the
message sent to the resolved target channel, or `none` when no channel
is configured or the channel fetch fails (`channelFetchOk`). -/
def announceBugUpdate (s : GuildSettings) (bug : Bug) (changedById : String)
    (extraText : String) (channelFetchOk : Bool) : Option OutMessage :=
  match announceTargetChannel s with
  | none => none
  | some _ =>
    if !channelFetchOk then none
    else
      let descLines : List (Option String) :=
        [some ("**Status:** " ++ bugStatusEmoji bug.status ++ " **" ++ bug.status ++ "**"),
         some ("**Changed by:** <@" ++ changedById ++ ">"),
         bug.assignedToId.map (fun a => "**Assigned:** <@" ++ a ++ ">"),
         if bug.lastNote ≠ "" then some ("**Note:** " ++ clampText bug.lastNote 900) else none,
         if extraText ≠ "" then some ("**Update:** " ++ clampText extraText 900) else none,
         bug.sourceMessageUrl.map (fun u => "**Link:** " ++ u)]
      let tagReporter := bug.status = "RESOLVED"
      some
        { content :=
            if tagReporter then
              some ("<@" ++ bug.reporterId ++ "> Your report **#" ++ toString bug.id
                ++ "** was marked **RESOLVED** ✅")
            else none,
          allowedMentionUsers := if tagReporter then [bug.reporterId] else [],
          embedDescription := String.intercalate "\n" (descLines.filterMap id) }

/-! ## Bug board rendering and refresh (src/index.js lines 443-534) -/

/-- Insert a bug into a list sorted descending by id
(`sort((a, b) => b.id - a.id)`). -/
def insertByIdDesc (b : Bug) : List Bug → List Bug
  | [] => [b]
  | x :: xs => if x.id ≤ b.id then b :: x :: xs else x :: insertByIdDesc b xs

/-- Sort bugs descending by id. -/
def sortByIdDesc (l : List Bug) : List Bug := l.foldr insertByIdDesc []

/-- `buildBugCardLine(bug)` -/
def buildBugCardLine (bug : Bug) : String :=
  let link := match bug.sourceMessageUrl with | some u => u | none => "(no link)"
  let assigned := match bug.assignedToId with | some a => " • <@" ++ a ++ ">" | none => ""
  bugStatusEmoji bug.status ++ " **#" ++ toString bug.id ++ "** " ++ clampText bug.title 60
    ++ " — **" ++ bug.status ++ "**" ++ assigned ++ "\n↳ " ++ link

/-- The description string of `buildBugBoardEmbed(guildId)`: the only
part of the embed that depends on the bug store (the title, color and
timestamp are fixed or wall-clock).  `intentOn` is the runtime
message-content-intent flag interpolated into the footer line. -/
def buildBugBoardDescription (store : BugStore) (intentOn : Bool) : String :=
  let all := sortByIdDesc (store.items.map (fun p => p.2))
  let openCount := (all.filter (fun b => b.status ≠ "RESOLVED")).length
  let resolvedCount := (all.filter (fun b => b.status = "RESOLVED")).length
  let shown := all.take 20
  let lines := if shown.length ≠ 0 then shown.map buildBugCardLine else ["No bug reports yet."]
  String.intercalate "\n"
    (["**Open:** " ++ toString openCount ++ " • **Resolved:** " ++ toString resolvedCount
        ++ " • **Total:** " ++ toString all.length,
      ""]
     ++ lines
     ++ ["", "**Message content capture:** " ++ (if intentOn then "ON" else "OFF")])

/-- World state for the board-reconciliation loop: the guild settings,
the bug store, the runtime intent flag, whether the board channel
resolves (`guild.channels.fetch`), whether `ch.send` succeeds, the
messages of the board channel (id ↦ content), and the id the next
posted message receives. -/
structure BoardWorld where
  settings : GuildSettings
  bugs : BugStore
  intentOn : Bool
  boardChannelOk : Bool
  sendOk : Bool
  messages : List (Nat × String)
  nextMsgId : Nat
deriving Repr, DecidableEq

/-- `ch.messages.fetch(id)` -/
def lookupMsg (msgs : List (Nat × String)) (id : Nat) : Option String :=
  (List.find? (fun p => p.1 == id) msgs).map (fun p => p.2)

/-- `msg.edit({...})` -/
def editMsg (msgs : List (Nat × String)) (id : Nat) (content : String) :
    List (Nat × String) :=
  List.map (fun p => if p.1 == id then (id, content) else p) msgs

/-- The `ch.send(...)` + `setSettings(..., { bug_board_message_id })`
path of `ensureBugBoardMessage`: posts a fresh board message rendered
from the current store and records its id. -/
def createBoardMessage (w : BoardWorld) : BoardWorld × Option Nat :=
  if !w.sendOk then (w, none)
  else
    let mid := w.nextMsgId
    ({ w with
        messages := w.messages ++ [(mid, buildBugBoardDescription w.bugs w.intentOn)],
        nextMsgId := mid + 1,
        settings := { w.settings with bug_board_message_id := some mid } },
     some mid)

/-- `ensureBugBoardMessage(guild)`: reuse the stored message if it still
resolves, otherwise post a new one and persist its id. -/
def ensureBugBoardMessage (w : BoardWorld) : BoardWorld × Option Nat :=
  match w.settings.bug_board_channel_id with
  | none => (w, none)
  | some _ =>
    if !w.boardChannelOk then (w, none)
    else
      match w.settings.bug_board_message_id with
      | some mid =>
        if (lookupMsg w.messages mid).isSome then (w, some mid)
        else createBoardMessage w
      | none => createBoardMessage w

/-- `refreshBugBoard(guild)`: ensure the board message exists, then edit
it to the rendering of the current store. -/
def refreshBugBoard (w : BoardWorld) : BoardWorld × Bool :=
  match ensureBugBoardMessage w with
  | (w1, none) => (w1, false)
  | (w1, some mid) =>
    ({ w1 with
        messages := editMsg w1.messages mid (buildBugBoardDescription w1.bugs w1.intentOn) },
     true)

/-- The content of the board message the settings currently point to. -/
def boardContent (w : BoardWorld) : Option String :=
  match w.settings.bug_board_message_id with
  | none => none
  | some mid => lookupMsg w.messages mid

/-- Well-formedness of the message model: ids of already-posted messages
are below the next fresh id (true of every reachable world). -/
def MsgIdsFresh (w : BoardWorld) : Prop :=
  ∀ p ∈ w.messages, p.1 < w.nextMsgId

/-! ## Helper lemmas about the association-list stores -/

theorem findUser_cons_pos (p : String × UserRec) (rest : Users) (k : String)
    (h : p.1 = k) : findUser (p :: rest) k = some p.2 := by
  unfold findUser
  rw [List.find?_cons_of_pos _ (by simp [h])]
  rfl

theorem findUser_cons_neg (p : String × UserRec) (rest : Users) (k : String)
    (h : ¬ p.1 = k) : findUser (p :: rest) k = findUser rest k := by
  unfold findUser
  rw [List.find?_cons_of_neg _ (by simp [h])]

theorem setUser_cons (p : String × UserRec) (rest : Users) (k : String) (r : UserRec) :
    setUser (p :: rest) k r = (if p.1 == k then (k, r) else p) :: setUser rest k r := by
  rfl

theorem findUser_ensureUser_of_some (users : Users) (k k' : String) (r : UserRec)
    (h : findUser users k' = some r) : findUser (ensureUser users k) k' = some r := by
  unfold ensureUser
  cases hk : findUser users k with
  | some _ => exact h
  | none =>
    unfold findUser at h ⊢
    rw [List.find?_append]
    cases hf : List.find? (fun p => p.1 == k') users with
    | some p => simp only [hf] at h ⊢; simpa using h
    | none => simp [hf] at h

theorem findUser_ensureUser_self (users : Users) (k : String) :
    findUser (ensureUser users k) k = some ((findUser users k).getD defaultUser) := by
  unfold ensureUser
  cases hk : findUser users k with
  | some r => simp [hk]
  | none =>
    unfold findUser at hk ⊢
    rw [List.find?_append]
    cases hf : List.find? (fun p => p.1 == k) users with
    | some p => simp [hf] at hk
    | none => simp

theorem balanceOf_ensureUser (users : Users) (k k' : String) :
    balanceOf (ensureUser users k) k' = balanceOf users k' := by
  by_cases hkk : k' = k
  · subst hkk
    unfold balanceOf
    rw [findUser_ensureUser_self]
    cases hk : findUser users k' with
    | some r => simp [hk]
    | none => simp [hk]
  · unfold balanceOf
    cases hf : findUser users k' with
    | some r => rw [findUser_ensureUser_of_some users k k' r hf]
    | none =>
      unfold ensureUser
      cases hk : findUser users k with
      | some _ => rw [hf]
      | none =>
        unfold findUser at hf ⊢
        rw [List.find?_append]
        cases hg : List.find? (fun p => p.1 == k') users with
        | some p => simp [hg] at hf
        | none =>
          have hb : (k == k') = false := by simp; exact fun he => hkk he.symm
          simp [hg, hb]

theorem findUser_setUser_self (users : Users) (k : String) (r₀ r : UserRec)
    (h : findUser users k = some r₀) : findUser (setUser users k r) k = some r := by
  induction users with
  | nil => simp [findUser] at h
  | cons p rest ih =>
    rw [setUser_cons]
    by_cases hp : p.1 = k
    · have hb : (p.1 == k) = true := by simp [hp]
      rw [if_pos hb, findUser_cons_pos (k, r) _ k rfl]
    · have hb : (p.1 == k) = false := by simp [hp]
      rw [if_neg (by simp [hp]), findUser_cons_neg p _ k hp]
      rw [findUser_cons_neg p rest k hp] at h
      exact ih h

theorem findUser_setUser_other (users : Users) (k k' : String) (r : UserRec)
    (h : ¬ k' = k) : findUser (setUser users k r) k' = findUser users k' := by
  induction users with
  | nil => rfl
  | cons p rest ih =>
    rw [setUser_cons]
    by_cases hp : p.1 = k
    · have hb : (p.1 == k) = true := by simp [hp]
      rw [if_pos hb]
      rw [findUser_cons_neg (k, r) _ k' (fun he => h he.symm)]
      rw [findUser_cons_neg p rest k' (by rw [hp]; exact fun he => h he.symm)]
      exact ih
    · have hb : (p.1 == k) = false := by simp [hp]
      rw [if_neg (by simp [hp])]
      by_cases hq : p.1 = k'
      · rw [findUser_cons_pos p _ k' hq, findUser_cons_pos p rest k' hq]
      · rw [findUser_cons_neg p _ k' hq, findUser_cons_neg p rest k' hq]
        exact ih





theorem balanceOf_eq_findUser_getD (users : Users) (k : String) :
    balanceOf users k = ((findUser users k).getD defaultUser).balance := rfl

theorem balanceOf_setUser_self (users : Users) (k : String) (r : UserRec)
    (h : ∃ r₀, findUser users k = some r₀) :
    balanceOf (setUser users k r) k = r.balance := by
  obtain ⟨r₀, h⟩ := h
  rw [balanceOf_eq_findUser_getD, findUser_setUser_self users k r₀ r h]
  rfl

theorem balanceOf_setUser_other (users : Users) (k k' : String) (r : UserRec)
    (h : ¬ k' = k) : balanceOf (setUser users k r) k' = balanceOf users k' := by
  rw [balanceOf_eq_findUser_getD, findUser_setUser_other users k k' r h,
    ← balanceOf_eq_findUser_getD]

theorem transferBalance_correct (users : Users) (g f t : String) (a : Int) :
    (a ≤ 0 → transferBalance users g f t a = (users, Except.error "amount must be > 0")) ∧
    (0 < a → balanceOf users (getUserKey g f) < a →
      (transferBalance users g f t a).2 = Except.error "insufficient funds" ∧
      balanceOf (transferBalance users g f t a).1 (getUserKey g f)
        = balanceOf users (getUserKey g f) ∧
      balanceOf (transferBalance users g f t a).1 (getUserKey g t)
        = balanceOf users (getUserKey g t)) ∧
    (0 ≤ balanceOf users (getUserKey g f) → 0 ≤ balanceOf users (getUserKey g t) →
      0 ≤ balanceOf (transferBalance users g f t a).1 (getUserKey g f) ∧
      0 ≤ balanceOf (transferBalance users g f t a).1 (getUserKey g t)) := by
  have hens : ∀ k',
      balanceOf (ensureUser (ensureUser users (getUserKey g f)) (getUserKey g t)) k'
        = balanceOf users k' := by
    intro k'
    rw [balanceOf_ensureUser, balanceOf_ensureUser]
  have hfrom_bal :
      ((findUser (ensureUser (ensureUser users (getUserKey g f)) (getUserKey g t))
          (getUserKey g f)).getD defaultUser).balance
        = balanceOf users (getUserKey g f) := by
    rw [← balanceOf_eq_findUser_getD, hens]
  have hpres2fk :
      findUser (ensureUser (ensureUser users (getUserKey g f)) (getUserKey g t))
          (getUserKey g f)
        = some ((findUser users (getUserKey g f)).getD defaultUser) := by
    exact findUser_ensureUser_of_some (ensureUser users (getUserKey g f))
      (getUserKey g t) (getUserKey g f) _ (findUser_ensureUser_self users (getUserKey g f))
  have hpres2tk : ∃ r,
      findUser (ensureUser (ensureUser users (getUserKey g f)) (getUserKey g t))
          (getUserKey g t) = some r :=
    ⟨_, findUser_ensureUser_self (ensureUser users (getUserKey g f)) (getUserKey g t)⟩
  refine ⟨?_, ?_, ?_⟩
  · intro ha
    unfold transferBalance
    rw [if_pos ha]
  · intro ha hins
    unfold transferBalance
    rw [if_neg (by omega)]
    simp only
    rw [if_pos (by rw [hfrom_bal]; exact hins)]
    exact ⟨rfl, hens _, hens _⟩
  · intro hf0 ht0
    unfold transferBalance
    by_cases ha : a ≤ 0
    · rw [if_pos ha]; exact ⟨hf0, ht0⟩
    · rw [if_neg ha]
      simp only
      by_cases hins :
          ((findUser (ensureUser (ensureUser users (getUserKey g f)) (getUserKey g t))
              (getUserKey g f)).getD defaultUser).balance < a
      · rw [if_pos hins]
        exact ⟨by rw [hens]; exact hf0, by rw [hens]; exact ht0⟩
      · rw [if_neg hins]
        simp only
        generalize hu2eq :
          ensureUser (ensureUser users (getUserKey g f)) (getUserKey g t) = u2
          at hpres2fk hpres2tk hens hfrom_bal hins
        generalize hfr : (findUser u2 (getUserKey g f)).getD defaultUser = fr
          at hpres2fk hfrom_bal hins
        have hb3fk :
            balanceOf (setUser u2 (getUserKey g f)
                { xp := fr.xp, level := fr.level,
                  balance := fr.balance - a, lastDailyMs := fr.lastDailyMs })
              (getUserKey g f)
              = fr.balance - a :=
          balanceOf_setUser_self _ _ _ ⟨_, hpres2fk⟩
        generalize hu3eq : setUser u2 (getUserKey g f)
            { xp := fr.xp, level := fr.level,
              balance := fr.balance - a, lastDailyMs := fr.lastDailyMs } = u3
          at hb3fk
        generalize htr : (findUser u3 (getUserKey g t)).getD defaultUser = tr
        have htr_bal : tr.balance = balanceOf u3 (getUserKey g t) := by
          rw [← htr, balanceOf_eq_findUser_getD]
        by_cases hsame : getUserKey g t = getUserKey g f
        · have hpres3tk : ∃ r, findUser u3 (getUserKey g t) = some r := by
            rw [hsame, ← hu3eq]
            exact ⟨_, findUser_setUser_self u2 (getUserKey g f) _ _ hpres2fk⟩
          have h4tk :
              balanceOf (setUser u3 (getUserKey g t)
                  { xp := tr.xp, level := tr.level,
                    balance := tr.balance + a, lastDailyMs := tr.lastDailyMs })
                (getUserKey g t)
                = tr.balance + a :=
            balanceOf_setUser_self _ _ _ hpres3tk
          have htr_val : tr.balance = fr.balance - a := by
            rw [htr_bal, hsame, hb3fk]
          constructor
          · rw [← hsame, h4tk, htr_val]
            omega
          · rw [h4tk, htr_val]
            omega
        · have hpres3tk : ∃ r, findUser u3 (getUserKey g t) = some r := by
            obtain ⟨r, hr⟩ := hpres2tk
            rw [← hu3eq]
            exact ⟨r, by rw [findUser_setUser_other _ _ _ _ hsame]; exact hr⟩
          have h4tk :
              balanceOf (setUser u3 (getUserKey g t)
                  { xp := tr.xp, level := tr.level,
                    balance := tr.balance + a, lastDailyMs := tr.lastDailyMs })
                (getUserKey g t)
                = tr.balance + a :=
            balanceOf_setUser_self _ _ _ hpres3tk
          have hfk_ne : ¬ getUserKey g f = getUserKey g t := fun h => hsame h.symm
          have h4fk :
              balanceOf (setUser u3 (getUserKey g t)
                  { xp := tr.xp, level := tr.level,
                    balance := tr.balance + a, lastDailyMs := tr.lastDailyMs })
                (getUserKey g f)
                = fr.balance - a := by
            rw [balanceOf_setUser_other _ _ _ _ hfk_ne, hb3fk]
          have htr_val : tr.balance = balanceOf users (getUserKey g t) := by
            rw [htr_bal, ← hu3eq, balanceOf_setUser_other _ _ _ _ hsame, hens]
          constructor
          · rw [h4fk]
            omega
          · rw [h4tk, htr_val]
            omega

/-! ## Claim theorems: XP and economy -/

/-- After the leveling loop, the remaining xp is strictly below the
threshold of the reached level. -/
theorem levelLoop_normalizes (xp : Nat) : ∀ level : Nat,
    (levelLoop xp level).1 < xpForNext (levelLoop xp level).2 := by
  induction xp using Nat.strong_induction_on with
  | _ xp ih =>
    intro level
    rw [levelLoop.eq_def]
    split
    · next h =>
      have hpos : 0 < xpForNext level := xpForNext_pos level
      exact ih (xp - xpForNext level) (by omega) (level + 1)
    · next h => simpa using Nat.lt_of_not_le h

/-- C1: for every user-progress record with xp below the current
threshold and every non-negative XP amount, the xp resulting from
`addXp` is strictly below `xpForNext` of the resulting level; and a
single call can raise the level more than once (granting 255 XP at
level 0 reaches level 2, since the thresholds for levels 0 and 1 are
100 and 155). -/
theorem addXp_normalizes (u : UserRec) (amount : Nat)
    (h : u.xp < xpForNext u.level) :
    (addXp u amount).1.xp < xpForNext (addXp u amount).1.level ∧
    (addXp ⟨0, 0, 0, 0⟩ 255).1.level = 2 := by
  refine ⟨?_, ?_⟩
  · simpa [addXp] using levelLoop_normalizes (u.xp + amount) u.level
  · simp [addXp, levelLoop.eq_def, xpForNext]

/-- Witness for C1 at a concrete record (xp 40 < threshold 220 of
level 2; adding 10 keeps it below the next threshold). -/
theorem addXp_normalizes_witness :
    (addXp ⟨40, 2, 0, 0⟩ 10).1.xp < xpForNext (addXp ⟨40, 2, 0, 0⟩ 10).1.level ∧
    (addXp ⟨0, 0, 0, 0⟩ 255).1.level = 2 :=
  addXp_normalizes ⟨40, 2, 0, 0⟩ 10 (by decide)

/-- A two-user demo store ("alice" holds 10 coins, "bob" holds 3). -/
def demoUsers : Users :=
  [("g:alice", ⟨0, 0, 10, 0⟩), ("g:bob", ⟨0, 0, 3, 0⟩)]

/-- Witness for C3: transferring 5 of alice's 10 coins to bob leaves
both balances non-negative. -/
theorem transferBalance_correct_witness :
    0 ≤ balanceOf (transferBalance demoUsers "g" "alice" "bob" 5).1 (getUserKey "g" "alice") ∧
    0 ≤ balanceOf (transferBalance demoUsers "g" "alice" "bob" 5).1 (getUserKey "g" "bob") :=
  (transferBalance_correct demoUsers "g" "alice" "bob" 5).2.2 (by decide) (by decide)

/-- C2 counterexample: `transferBalance` signals an invalid (zero)
amount by throwing an `Error` — modelled as an `Except.error` result —
rather than returning a null/ok-flag sentinel, so not every economy
mutator signals validation outcomes without throwing. -/
theorem transferBalance_throws_counterexample :
    (transferBalance [] "g" "alice" "bob" 0).2 = Except.error "amount must be > 0" := rfl

/-- C2 (amended): the ticket and bug mutators signal not-found and
validation outcomes via sentinel returns (`ok:false` object / null),
and `claimDaily` signals a premature claim via an `ok:false` object,
but the economy transfer `transferBalance` signals a non-positive
amount (and insufficient funds) by throwing an `Error`, which its
caller catches. -/
theorem mutators_signal_invalid_inputs
    (tickets : Tickets) (pending : List String) (g c u : String) (now : Int)
    (store : BugStore) (id : Nat) (status : String) (asg : Option (Option String))
    (note : String) (users : Users) (gg f t : String) (a : Int) :
    (getTicket tickets c = none →
      closeTicketChannel tickets pending g c u now
        = ((tickets, pending),
           { ok := false, reason := some "This channel is not an open ticket." })) ∧
    (getBug store id = none → setBugStatus store id status asg note now = (store, none)) ∧
    (a ≤ 0 → (transferBalance users gg f t a).2 = Except.error "amount must be > 0") ∧
    (∀ urec : UserRec, ∀ nowD reward : Int,
      urec.lastDailyMs ≠ 0 → nowD - urec.lastDailyMs < 86400000 →
      claimDaily urec nowD reward
        = (urec, ClaimResult.fail (86400000 - (nowD - urec.lastDailyMs)))) := by
  refine ⟨?_, ?_, ?_, ?_⟩
  · intro h
    unfold closeTicketChannel
    rw [h]
  · intro h
    unfold setBugStatus
    rw [h]
  · intro h
    unfold transferBalance
    rw [if_pos h]
  · intro urec nowD reward h1 h2
    unfold claimDaily
    rw [if_pos ⟨h1, h2⟩]

/-- Witness for the amended C2 at concrete invalid inputs. -/
theorem mutators_signal_invalid_inputs_witness :
    closeTicketChannel [] [] "g" "chan" "user" 0
      = (([], []), { ok := false, reason := some "This channel is not an open ticket." }) ∧
    setBugStatus ⟨0, []⟩ 1 "OPEN" none "" 0 = (⟨0, []⟩, none) ∧
    (transferBalance [] "g" "alice" "bob" 0).2 = Except.error "amount must be > 0" ∧
    claimDaily ⟨0, 0, 0, 5⟩ 10 300 = (⟨0, 0, 0, 5⟩, ClaimResult.fail (86400000 - (10 - 5))) := by
  have h := mutators_signal_invalid_inputs [] [] "g" "chan" "user" 0
    ⟨0, []⟩ 1 "OPEN" none "" [] "g" "alice" "bob" 0
  exact ⟨h.1 rfl, h.2.1 rfl, h.2.2.1 (by decide),
    h.2.2.2 ⟨0, 0, 0, 5⟩ 10 300 (by decide) (by decide)⟩

/-! ## Claim theorems: tickets -/

/-- C5: `closeTicketChannel` on a channel with no ticket record, a
ticket of a different guild, or an already-closed ticket returns
`ok:false` with the not-an-open-ticket reason and leaves the ticket
store and the pending-deletion list unchanged. -/
theorem closeTicketChannel_invalid_no_mutation
    (tickets : Tickets) (pending : List String) (guildId channelId closedById : String)
    (now : Int)
    (h : getTicket tickets channelId = none ∨
         ∃ t, getTicket tickets channelId = some t ∧
           (t.guildId ≠ guildId ∨ t.status ≠ "open")) :
    closeTicketChannel tickets pending guildId channelId closedById now
      = ((tickets, pending),
         { ok := false, reason := some "This channel is not an open ticket." }) := by
  unfold closeTicketChannel
  rcases h with h | ⟨t, ht, hcond⟩
  · rw [h]
  · rw [ht]
    simp only [if_pos hcond]

/-- A demo ticket already closed in guild "g". -/
def demoClosedTicket : Ticket :=
  { guildId := "g", ownerId := "owner", status := "closed", createdAtMs := 0,
    closedAtMs := 5, assignedStaffIds := [], addedUserIds := [] }

/-- Witness for C5: closing an already-closed ticket channel. -/
theorem closeTicketChannel_invalid_no_mutation_witness :
    closeTicketChannel [("chan", demoClosedTicket)] [] "g" "chan" "user" 9
      = (([("chan", demoClosedTicket)], []),
         { ok := false, reason := some "This channel is not an open ticket." }) :=
  closeTicketChannel_invalid_no_mutation [("chan", demoClosedTicket)] [] "g" "chan" "user" 9
    (Or.inr ⟨demoClosedTicket, rfl, Or.inr (by decide)⟩)

/-- C6: ticket numbers are allocated by incrementing the persisted
counter, so successive allocations are strictly increasing, and
`createTicketChannel` consumes the number (the counter stays
incremented) even when the bot member fails to resolve or the channel
creation fails. -/
theorem ticketNumbers_increase_even_on_failure (s : GuildSettings) :
    (nextTicketNumber s).1 = s.ticket_counter + 1 ∧
    (nextTicketNumber s).1 < (nextTicketNumber (nextTicketNumber s).2).1 ∧
    ∀ (tickets : Tickets) (guildId ownerId : String) (meOk chOk : Bool)
      (newChannelId : String) (now : Int),
      (createTicketChannel s tickets guildId ownerId meOk chOk newChannelId now).1.ticket_counter
        = s.ticket_counter + 1 := by
  refine ⟨rfl, by simp [nextTicketNumber], ?_⟩
  intro tickets guildId ownerId meOk chOk newChannelId now
  cases meOk <;> cases chOk <;> simp [createTicketChannel, nextTicketNumber]

/-! ## Claim theorems: bug tracker -/

/-- A 101-character title. -/
def longTitle : String := String.mk (List.replicate 101 'a')

/-- C7 counterexample: `createBug` stores a 101-character title
unchanged — it normalizes with trim-or-fallback but never truncates to
the 100-character limit. -/
theorem createBug_does_not_truncate_counterexample :
    ((createBug ⟨0, []⟩ "g" "rep" longTitle "desc" none none 0).2.title).length = 101 := by
  decide

/-- C7 (amended): `createBug` normalizes the title and description to
non-empty fallback strings ("Untitled" / "(no description)") but
performs no truncation itself; the stored values are exactly the
trimmed inputs or the fallbacks.  (Length limits are enforced
upstream: message ingestion slices the title to 100 and the
description to 900 characters, and the report-modal inputs cap at
100/1000.) -/
theorem createBug_normalizes_no_truncation
    (store : BugStore) (g r ti d : String) (sc sm : Option String) (now : Int) :
    (createBug store g r ti d sc sm now).2.title
      = (if jsTrim ti = "" then "Untitled" else jsTrim ti) ∧
    (createBug store g r ti d sc sm now).2.description
      = (if jsTrim d = "" then "(no description)" else jsTrim d) ∧
    (createBug store g r ti d sc sm now).2.title ≠ "" ∧
    (createBug store g r ti d sc sm now).2.description ≠ "" := by
  refine ⟨rfl, rfl, ?_, ?_⟩
  · by_cases hti : jsTrim ti = "" <;> simp [createBug, hti]
  · by_cases hd : jsTrim d = "" <;> simp [createBug, hd]

/-- C8: bug ids are allocated by incrementing the per-guild counter
(successive `createBug` calls yield counter+1 then counter+2), and the
three mutators return null and leave the store untouched when the id
is not present. -/
theorem bugIds_increase_and_unknown_ids_untouched
    (store : BugStore) (g r ti d : String) (sc sm : Option String) (now : Int) :
    (createBug store g r ti d sc sm now).2.id = store.counter + 1 ∧
    (createBug store g r ti d sc sm now).1.counter = store.counter + 1 ∧
    (createBug (createBug store g r ti d sc sm now).1 g r ti d sc sm now).2.id
      = store.counter + 2 ∧
    ∀ id : Nat, getBug store id = none →
      ∀ (status : String) (asg : Option (Option String))
        (note byId text note2 : String) (now2 : Int),
        setBugStatus store id status asg note now2 = (store, none) ∧
        addBugComment store id byId text now2 = (store, none) ∧
        reopenBug store id note2 now2 = (store, none) := by
  refine ⟨rfl, rfl, rfl, ?_⟩
  intro id h status asg note byId text note2 now2
  refine ⟨?_, ?_, ?_⟩
  · unfold setBugStatus
    rw [h]
  · unfold addBugComment
    rw [h]
  · unfold reopenBug
    rw [h]

/-- Witness for C8 on the empty store with unknown id 1. -/
theorem bugIds_increase_and_unknown_ids_untouched_witness :
    (createBug ⟨0, []⟩ "g" "rep" "T" "D" none none 0).2.id = 0 + 1 ∧
    setBugStatus ⟨0, []⟩ 1 "RESOLVED" none "" 0 = (⟨0, []⟩, none) ∧
    addBugComment ⟨0, []⟩ 1 "by" "text" 0 = (⟨0, []⟩, none) ∧
    reopenBug ⟨0, []⟩ 1 "note" 0 = (⟨0, []⟩, none) := by
  have h := bugIds_increase_and_unknown_ids_untouched ⟨0, []⟩ "g" "rep" "T" "D" none none 0
  have h4 := h.2.2.2 1 rfl "RESOLVED" none "" "by" "text" "note" 0
  exact ⟨h.1, h4.1, h4.2.1, h4.2.2⟩

/-- C10: `addBugComment` with an empty or whitespace-only text returns
null and leaves the store unchanged (this holds whether or not the bug
id exists, since the blank check fires before any mutation). -/
theorem addBugComment_blank_returns_null
    (store : BugStore) (id : Nat) (byId text : String) (now : Int)
    (h : jsTrim text = "") :
    addBugComment store id byId text now = (store, none) := by
  unfold addBugComment
  cases hb : getBug store id with
  | none => rfl
  | some bug => simp [h]

/-- A demo store holding bug #1. -/
def demoBug : Bug :=
  { id := 1, reporterId := "rep", title := "T", description := "D", status := "OPEN",
    createdAtMs := 0, updatedAtMs := 0, sourceChannelId := none, sourceMessageId := none,
    sourceMessageUrl := none, assignedToId := none, lastNote := "", comments := [] }

def demoBugStore : BugStore := ⟨1, [(1, demoBug)]⟩

/-- Witness for C10: whitespace-only comment on an existing bug. -/
theorem addBugComment_blank_returns_null_witness :
    addBugComment demoBugStore 1 "user" "   " 5 = (demoBugStore, none) :=
  addBugComment_blank_returns_null demoBugStore 1 "user" "   " 5 (by decide)

/-! ## Claim theorems: bug update notifications -/

/-- C9: whenever `announceBugUpdate` posts a notification, the original
reporter is tagged (appears in `allowedMentions.users`, and a
reporter-addressed `content` line is present) exactly when the bug's
status is `RESOLVED`. -/
theorem announceBugUpdate_tags_reporter_iff_resolved
    (s : GuildSettings) (bug : Bug) (changedById extraText : String)
    (channelFetchOk : Bool) :
    ∀ m, announceBugUpdate s bug changedById extraText channelFetchOk = some m →
      ((bug.reporterId ∈ m.allowedMentionUsers) ↔ bug.status = "RESOLVED") ∧
      (m.content.isSome ↔ bug.status = "RESOLVED") := by
  intro m hm
  unfold announceBugUpdate at hm
  cases ht : announceTargetChannel s with
  | none =>
    rw [ht] at hm
    simp at hm
  | some c =>
    rw [ht] at hm
    cases channelFetchOk with
    | false => simp at hm
    | true =>
      simp only [Bool.not_true, Bool.false_eq_true, if_false, Option.some.injEq] at hm
      subst hm
      by_cases hres : bug.status = "RESOLVED"
      · simp [hres]
      · simp [hres]

/-- Settings with only the updates channel configured. -/
def c9Settings : GuildSettings :=
  { defaultSettings with bug_updates_channel_id := some "updates" }

/-- A resolved bug reported by "rep". -/
def c9Bug : Bug :=
  { id := 3, reporterId := "rep", title := "T", description := "D", status := "RESOLVED",
    createdAtMs := 0, updatedAtMs := 0, sourceChannelId := none, sourceMessageId := none,
    sourceMessageUrl := none, assignedToId := none, lastNote := "", comments := [] }

/-- The message `announceBugUpdate` posts for `c9Bug`. -/
def c9Msg : OutMessage :=
  (announceBugUpdate c9Settings c9Bug "mod" "" true).getD ⟨none, [], ""⟩

/-- Witness for C9 at the concrete resolved bug. -/
theorem announceBugUpdate_tags_reporter_iff_resolved_witness :
    (c9Bug.reporterId ∈ c9Msg.allowedMentionUsers ↔ c9Bug.status = "RESOLVED") ∧
    (c9Msg.content.isSome ↔ c9Bug.status = "RESOLVED") :=
  announceBugUpdate_tags_reporter_iff_resolved c9Settings c9Bug "mod" "" true c9Msg rfl

/-! ## Claim theorems: board refresh -/

theorem lookupMsg_editMsg_self (msgs : List (Nat × String)) (id : Nat) (c : String)
    (h : (lookupMsg msgs id).isSome) :
    lookupMsg (editMsg msgs id c) id = some c := by
  induction msgs with
  | nil => simp [lookupMsg] at h
  | cons p rest ih =>
    by_cases hp : p.1 = id
    · show lookupMsg ((if (p.1 == id) = true then (id, c) else p) :: editMsg rest id c) id = some c
      rw [if_pos (by simp [hp])]
      unfold lookupMsg
      rw [List.find?_cons_of_pos _ (by simp)]
      rfl
    · show lookupMsg ((if (p.1 == id) = true then (id, c) else p) :: editMsg rest id c) id = some c
      rw [if_neg (by simp [hp])]
      unfold lookupMsg at h ⊢
      rw [List.find?_cons_of_neg _ (by simp [hp])] at h ⊢
      exact ih h

theorem lookupMsg_append_isSome (msgs : List (Nat × String)) (id : Nat) (c : String) :
    (lookupMsg (msgs ++ [(id, c)]) id).isSome := by
  unfold lookupMsg
  rw [List.find?_append]
  cases hf : List.find? (fun p => p.1 == id) msgs with
  | some p => simp
  | none => simp

theorem refreshBugBoard_fail_no_channel (w : BoardWorld)
    (h : w.settings.bug_board_channel_id = none) : refreshBugBoard w = (w, false) := by
  unfold refreshBugBoard ensureBugBoardMessage
  simp [h]

theorem refreshBugBoard_fail_channel_bad (w : BoardWorld) (c : String)
    (hchan : w.settings.bug_board_channel_id = some c)
    (hok : w.boardChannelOk = false) : refreshBugBoard w = (w, false) := by
  unfold refreshBugBoard ensureBugBoardMessage
  simp [hchan, hok]

theorem refreshBugBoard_fail_send_stale (w : BoardWorld) (c : String) (mid : Nat)
    (hchan : w.settings.bug_board_channel_id = some c)
    (hok : w.boardChannelOk = true)
    (hmid : w.settings.bug_board_message_id = some mid)
    (hl : lookupMsg w.messages mid = none)
    (hsend : w.sendOk = false) : refreshBugBoard w = (w, false) := by
  unfold refreshBugBoard ensureBugBoardMessage createBoardMessage
  simp [hchan, hok, hmid, hl, hsend]

theorem refreshBugBoard_fail_send_fresh (w : BoardWorld) (c : String)
    (hchan : w.settings.bug_board_channel_id = some c)
    (hok : w.boardChannelOk = true)
    (hmid : w.settings.bug_board_message_id = none)
    (hsend : w.sendOk = false) : refreshBugBoard w = (w, false) := by
  unfold refreshBugBoard ensureBugBoardMessage createBoardMessage
  simp [hchan, hok, hmid, hsend]

/-- `ensureBugBoardMessage` reuses the stored board message when the
settings point at one that still resolves. -/
theorem ensureBugBoardMessage_reuses (w : BoardWorld) (c : String) (mid : Nat)
    (content : String)
    (hchan : w.settings.bug_board_channel_id = some c)
    (hok : w.boardChannelOk = true)
    (hmid : w.settings.bug_board_message_id = some mid)
    (hlook : lookupMsg w.messages mid = some content) :
    ensureBugBoardMessage w = (w, some mid) := by
  unfold ensureBugBoardMessage
  simp [hchan, hok, hmid, hlook]

/-- A refresh that reuses the stored message edits it to the rendering
of the current store. -/
theorem refreshBugBoard_eq_of_reuse (w : BoardWorld) (c : String) (mid : Nat)
    (content : String)
    (hchan : w.settings.bug_board_channel_id = some c)
    (hok : w.boardChannelOk = true)
    (hmid : w.settings.bug_board_message_id = some mid)
    (hlook : lookupMsg w.messages mid = some content) :
    refreshBugBoard w
      = ({ w with messages :=
            editMsg w.messages mid (buildBugBoardDescription w.bugs w.intentOn) },
         true) := by
  unfold refreshBugBoard
  rw [ensureBugBoardMessage_reuses w c mid content hchan hok hmid hlook]

theorem ensureBugBoardMessage_creates_stale (w : BoardWorld) (c : String) (mid : Nat)
    (hchan : w.settings.bug_board_channel_id = some c)
    (hok : w.boardChannelOk = true)
    (hmid : w.settings.bug_board_message_id = some mid)
    (hl : lookupMsg w.messages mid = none)
    (hsend : w.sendOk = true) :
    ensureBugBoardMessage w
      = ({ w with
            messages := w.messages
              ++ [(w.nextMsgId, buildBugBoardDescription w.bugs w.intentOn)],
            nextMsgId := w.nextMsgId + 1,
            settings := { w.settings with bug_board_message_id := some w.nextMsgId } },
         some w.nextMsgId) := by
  unfold ensureBugBoardMessage createBoardMessage
  simp [hchan, hok, hmid, hl, hsend]

theorem ensureBugBoardMessage_creates_fresh (w : BoardWorld) (c : String)
    (hchan : w.settings.bug_board_channel_id = some c)
    (hok : w.boardChannelOk = true)
    (hmid : w.settings.bug_board_message_id = none)
    (hsend : w.sendOk = true) :
    ensureBugBoardMessage w
      = ({ w with
            messages := w.messages
              ++ [(w.nextMsgId, buildBugBoardDescription w.bugs w.intentOn)],
            nextMsgId := w.nextMsgId + 1,
            settings := { w.settings with bug_board_message_id := some w.nextMsgId } },
         some w.nextMsgId) := by
  unfold ensureBugBoardMessage createBoardMessage
  simp [hchan, hok, hmid, hsend]

theorem refreshBugBoard_eq_of_create_stale (w : BoardWorld) (c : String) (mid : Nat)
    (hchan : w.settings.bug_board_channel_id = some c)
    (hok : w.boardChannelOk = true)
    (hmid : w.settings.bug_board_message_id = some mid)
    (hl : lookupMsg w.messages mid = none)
    (hsend : w.sendOk = true) :
    refreshBugBoard w
      = ({ w with
            messages := editMsg
              (w.messages ++ [(w.nextMsgId, buildBugBoardDescription w.bugs w.intentOn)])
              w.nextMsgId (buildBugBoardDescription w.bugs w.intentOn),
            nextMsgId := w.nextMsgId + 1,
            settings := { w.settings with bug_board_message_id := some w.nextMsgId } },
         true) := by
  unfold refreshBugBoard
  rw [ensureBugBoardMessage_creates_stale w c mid hchan hok hmid hl hsend]

theorem refreshBugBoard_eq_of_create_fresh (w : BoardWorld) (c : String)
    (hchan : w.settings.bug_board_channel_id = some c)
    (hok : w.boardChannelOk = true)
    (hmid : w.settings.bug_board_message_id = none)
    (hsend : w.sendOk = true) :
    refreshBugBoard w
      = ({ w with
            messages := editMsg
              (w.messages ++ [(w.nextMsgId, buildBugBoardDescription w.bugs w.intentOn)])
              w.nextMsgId (buildBugBoardDescription w.bugs w.intentOn),
            nextMsgId := w.nextMsgId + 1,
            settings := { w.settings with bug_board_message_id := some w.nextMsgId } },
         true) := by
  unfold refreshBugBoard
  rw [ensureBugBoardMessage_creates_fresh w c hchan hok hmid hsend]

/-- After a refresh whose board message holds exactly the rendering of
the current store, a second refresh rewrites the same content, so the
board content is unchanged. -/
theorem refreshBugBoard_second_content (w1 : BoardWorld) (c : String) (mid : Nat)
    (hchan : w1.settings.bug_board_channel_id = some c)
    (hok : w1.boardChannelOk = true)
    (hmid : w1.settings.bug_board_message_id = some mid)
    (hlook : lookupMsg w1.messages mid
      = some (buildBugBoardDescription w1.bugs w1.intentOn)) :
    boardContent ((refreshBugBoard w1).1) = boardContent w1 := by
  rw [refreshBugBoard_eq_of_reuse w1 c mid _ hchan hok hmid hlook]
  unfold boardContent
  rw [hmid]
  simp only
  rw [lookupMsg_editMsg_self _ _ _ (by rw [hlook]; rfl)]
  rw [hlook]

/-- C4: `refreshBugBoard` never mutates the bug store, and a second
refresh with no intervening store mutation leaves the board message
with byte-identical rendered content. -/
theorem refreshBugBoard_idempotent (w : BoardWorld) :
    (refreshBugBoard w).1.bugs = w.bugs ∧
    boardContent ((refreshBugBoard ((refreshBugBoard w).1)).1)
      = boardContent ((refreshBugBoard w).1) := by
  cases hchan : w.settings.bug_board_channel_id with
  | none =>
    have h := refreshBugBoard_fail_no_channel w hchan
    rw [h]
    exact ⟨rfl, by rw [h]⟩
  | some c =>
    cases hok : w.boardChannelOk with
    | false =>
      have h := refreshBugBoard_fail_channel_bad w c hchan hok
      rw [h]
      exact ⟨rfl, by rw [h]⟩
    | true =>
      cases hmid : w.settings.bug_board_message_id with
      | some mid =>
        cases hl : lookupMsg w.messages mid with
        | some o =>
          have h := refreshBugBoard_eq_of_reuse w c mid o hchan hok hmid hl
          rw [h]
          refine ⟨rfl, ?_⟩
          exact refreshBugBoard_second_content _ c mid hchan hok hmid
            (lookupMsg_editMsg_self _ _ _ (by rw [hl]; rfl))
        | none =>
          cases hsend : w.sendOk with
          | false =>
            have h := refreshBugBoard_fail_send_stale w c mid hchan hok hmid hl hsend
            rw [h]
            exact ⟨rfl, by rw [h]⟩
          | true =>
            have h := refreshBugBoard_eq_of_create_stale w c mid hchan hok hmid hl hsend
            rw [h]
            refine ⟨rfl, ?_⟩
            exact refreshBugBoard_second_content _ c w.nextMsgId hchan hok rfl
              (lookupMsg_editMsg_self _ _ _ (lookupMsg_append_isSome _ _ _))
      | none =>
        cases hsend : w.sendOk with
        | false =>
          have h := refreshBugBoard_fail_send_fresh w c hchan hok hmid hsend
          rw [h]
          exact ⟨rfl, by rw [h]⟩
        | true =>
          have h := refreshBugBoard_eq_of_create_fresh w c hchan hok hmid hsend
          rw [h]
          refine ⟨rfl, ?_⟩
          exact refreshBugBoard_second_content _ c w.nextMsgId hchan hok rfl
            (lookupMsg_editMsg_self _ _ _ (lookupMsg_append_isSome _ _ _))

end DiscordBot
